import Mathlib

/-!
Verification development for the antx-sdk Go client.

The definitions below are a shallow embedding of the SDK's transaction
submission pipeline (`signAndSendTx`, `GetAccountNumberAndSequence`,
`SendRawTx`), its WebSocket subscription demultiplexer
(`SubscribeToTicker`, `SubscribeToKline`, `Disconnect`), the WebSocket
frame parsers (`ParseTickerData`, `ParseKlineData`), and the
personal-message signing and verification path (`BindAgent`,
`VerifyEthPersonalSignature`).

External effects (HTTP round trips, the cosmos-sdk keyring/signing
machinery, the system clock) are made explicit as a `World` record whose
fields hold the outcome each external call would produce; the embedded
functions consume that record exactly where the Go code performs the
corresponding call.  Machine integers are modelled as `Nat` with explicit
range checks where the Go code's fixed width matters.
-/

namespace AntxSdk

/-- `strconv.ParseUint(s, 10, 64)`: accepts a non-empty all-digit string
whose value fits in 64 bits; anything else is an error (`none`). -/
def parseUint64 (s : String) : Option Nat :=
  if s.data = [] then none
  else if s.data.all Char.isDigit then
    let v := s.data.foldl (fun acc c => acc * 10 + (c.toNat - 48)) 0
    if v < 2 ^ 64 then some v else none
  else none

/-- `types.GetAccountNumberAndSequenceResponseData` (gateway.go). -/
structure GetAccountNumberAndSequenceResponseData where
  exist : Bool
  accountNumber : String
  sequence : String
deriving Repr, DecidableEq

/-- `types.GetAccountNumberAndSequenceResponse`: `BaseResp` (code, msg)
plus the data payload. -/
structure GetAccountNumberAndSequenceResponse where
  code : String
  msg : String
  data : GetAccountNumberAndSequenceResponseData
deriving Repr, DecidableEq

/-- `types.SendRawTxRequest` (gateway.go). -/
structure SendRawTxRequest where
  typeURL : String
  rawTx : String
  accountNumber : Nat
deriving Repr, DecidableEq

/-- `types.SendRawTxResponseData` (gateway.go): the transaction hash may
appear under `txHash`, `hash` or `txId`. -/
structure SendRawTxResponseData where
  txHash : String
  rawTx : String
  resultData : String
  hash : String
  txID : String
deriving Repr, DecidableEq

/-- `types.SendRawTxResponse`: `BaseResp` (code, msg) plus data. -/
structure SendRawTxResponse where
  code : String
  msg : String
  data : SendRawTxResponseData
deriving Repr, DecidableEq

/-- A typed ledger instruction (`sdk.Msg`); its content is opaque to the
submission pipeline, so it is kept as an abstract payload. -/
structure SdkMsg where
  payload : String
deriving Repr, DecidableEq

/-- The fields of `AntxClient` that the submission pipeline reads. -/
structure AntxClient where
  baseURL : String
  chainID : String
  accountNumber : Nat
  agentAddress : String
deriving Repr, DecidableEq

/-- Outcomes of the external calls made during one `signAndSendTx`
invocation: the clock (`time.Now().UnixNano()`), the HTTP result of the
`getAddressInfo` GET, the HTTP result of the `sendTransaction` POST, and
the success of the cosmos-sdk steps (`SetMsgs`, `ImportPrivKeyHex`,
`tx.Sign`, `TxEncoder`); `txBytes` stands for the base64-encoded wire
bytes the encoder would produce. -/
structure World where
  now : Nat
  addrInfoResult : Except String GetAccountNumberAndSequenceResponse
  sendTxResult : Except String SendRawTxResponse
  setMsgsOk : Bool
  importOk : Bool
  signOk : Bool
  encodeOk : Bool
  txBytes : String
deriving Repr

/-- `AntxClient.GetAccountNumberAndSequence` (constants.go 366-384):
with no gateway configured it short-circuits to `("0", "0")`; otherwise
it performs the GET, fails on transport error, fails on a non-"0"
response code, and returns the account number and sequence strings. -/
def GetAccountNumberAndSequence (c : AntxClient) (w : World) (address : String) :
    Except String (String × String) :=
  if c.baseURL = "" then .ok ("0", "0")
  else
    match w.addrInfoResult with
    | .error e => .error e
    | .ok result =>
      if result.code ≠ "0" then .error ("get account info failed: " ++ result.msg)
      else .ok (result.data.accountNumber, result.data.sequence)

/-- `AntxClient.SendRawTx` (constants.go 387-410): with no gateway
configured it fabricates a success response (`code "0"`,
`TxHash "mock_tx_hash"`) without touching the network; otherwise it
POSTs and returns the parsed response, failing only on transport error —
the response's own `code` field is not inspected here. -/
def SendRawTx (c : AntxClient) (w : World) (req : SendRawTxRequest) :
    Except String SendRawTxResponse :=
  if c.baseURL = "" then
    .ok { code := "0", msg := "success"
          data := { txHash := "mock_tx_hash", rawTx := req.rawTx
                    resultData := "mock_result", hash := "", txID := "" } }
  else
    match w.sendTxResult with
    | .error e => .error e
    | .ok result => .ok result

/-- The envelope state accumulated on the cosmos `TxBuilder` by
`signAndSendTx`: messages, the unordered marker, the timeout timestamp
(nanoseconds, set only in unordered mode), the gas limit and the fee. -/
structure TxBuilderState where
  msgs : List SdkMsg
  unordered : Bool
  timeoutTimestamp : Option Nat
  gasLimit : Nat
  feeAmount : List Nat
deriving Repr, DecidableEq

/-- The state accumulated on the cosmos `tx.Factory` by `signAndSendTx`:
`sequence = none` when `WithSequence` was never called. -/
structure TxFactoryState where
  chainID : String
  accountNumber : Nat
  sequence : Option Nat
deriving Repr, DecidableEq

/-- What a successful `signAndSendTx` call produced: the returned hash,
the final builder and factory states, and whether
`GetAccountNumberAndSequence` was invoked during the call. -/
structure SignSendOutcome where
  txHash : String
  builder : TxBuilderState
  factory : TxFactoryState
  fetchCalled : Bool
deriving Repr, DecidableEq

/-- The hash extraction at the end of `signAndSendTx` (constants.go
498-505): try `txHash`, then `hash`, then `txId`, first non-empty wins
(the last one is returned even if empty). -/
def extractTxHash (d : SendRawTxResponseData) : String :=
  if d.txHash ≠ "" then d.txHash
  else if d.hash ≠ "" then d.hash
  else d.txID

/-- `AntxClient.signAndSendTx` (constants.go 422-508), step by step:
set messages; compute `timeout = now + 10s`; in unordered mode set the
unordered marker and the timeout timestamp; set gas 200000 and empty
fee; import the agent key into an in-memory keyring; build the factory
with the cached account number; in ordered mode fetch the sequence
fresh via `GetAccountNumberAndSequence`, parse it and set it on the
factory; sign; encode; `SendRawTx`; extract the hash.  Every failing
step aborts with an error and no outcome. -/
def signAndSendTx (c : AntxClient) (w : World) (typeURL : String) (msg : SdkMsg)
    (unordered : Bool) : Except String SignSendOutcome :=
  if w.setMsgsOk = false then .error "failed to set messages"
  else
    let timeoutInt := w.now + 10 * 1000000000
    let tb0 : TxBuilderState :=
      { msgs := [msg], unordered := false, timeoutTimestamp := none
        gasLimit := 0, feeAmount := [] }
    let tb1 :=
      if unordered then
        { tb0 with unordered := true, timeoutTimestamp := some timeoutInt }
      else tb0
    let tb2 := { tb1 with gasLimit := 200000, feeAmount := [] }
    if w.importOk = false then .error "failed to import private key to keyring"
    else
      let f0 : TxFactoryState :=
        { chainID := c.chainID, accountNumber := c.accountNumber, sequence := none }
      let factoryStep : Except String (TxFactoryState × Bool) :=
        if unordered then .ok (f0, false)
        else
          match GetAccountNumberAndSequence c w c.agentAddress with
          | .error e => .error ("failed to get account number and sequence: " ++ e)
          | .ok (_, sequence) =>
            match parseUint64 sequence with
            | none => .error "failed to parse sequence"
            | some sequenceUint => .ok ({ f0 with sequence := some sequenceUint }, true)
      match factoryStep with
      | .error e => .error e
      | .ok (f1, fetched) =>
        if w.signOk = false then .error "failed to sign transaction"
        else if w.encodeOk = false then .error "failed to encode transaction"
        else
          let req : SendRawTxRequest :=
            { typeURL := typeURL, rawTx := w.txBytes, accountNumber := c.accountNumber }
          match SendRawTx c w req with
          | .error e => .error ("failed to send transaction: " ++ e)
          | .ok resp =>
            .ok { txHash := extractTxHash resp.data, builder := tb2
                  factory := f1, fetchCalled := fetched }

/-!
JSON model.  The Go code delegates frame parsing to `encoding/json`
(`json.Unmarshal`); the SDK itself only chooses the target struct shape
and inspects the decoded fields.  The external library is modelled here
by a JSON value type, a parser over the frame's characters, and
struct decoders that follow Go's unmarshal rules for the structs the
SDK declares: unknown object keys are ignored, a duplicated key keeps
the last occurrence, a missing or `null` field leaves the Go zero
value, a field of the wrong JSON type is an unmarshal error, and a
top-level `null` leaves the whole struct zero.  (Go's case-insensitive
key fallback and `\u` escapes are not modelled; all frames of interest
use exact lower-case keys.) -/

/-- JSON values; numbers keep their raw token text. -/
inductive JValue where
  | jnull : JValue
  | jbool : Bool → JValue
  | jnum : String → JValue
  | jstr : String → JValue
  | jarr : List JValue → JValue
  | jobj : List (String × JValue) → JValue
deriving Repr, Inhabited

/-- Drop leading JSON whitespace. -/
def skipWs : List Char → List Char
  | c :: cs => if c = ' ' ∨ c = '\t' ∨ c = '\n' ∨ c = '\r' then skipWs cs else c :: cs
  | [] => []

/-- Parse the body of a JSON string after the opening quote; returns the
decoded characters and the remainder after the closing quote. -/
def parseStringBody : List Char → Option (List Char × List Char)
  | [] => none
  | c :: cs =>
    if c = '"' then some ([], cs)
    else if c = '\\' then
      match cs with
      | [] => none
      | e :: cs' =>
        let esc : Option Char :=
          if e = '"' then some '"'
          else if e = '\\' then some '\\'
          else if e = '/' then some '/'
          else if e = 'n' then some '\n'
          else if e = 't' then some '\t'
          else if e = 'r' then some '\r'
          else if e = 'b' then some (Char.ofNat 8)
          else if e = 'f' then some (Char.ofNat 12)
          else none
        match esc with
        | none => none
        | some ch =>
          match parseStringBody cs' with
          | none => none
          | some (rest, rem) => some (ch :: rest, rem)
    else
      match parseStringBody cs with
      | none => none
      | some (rest, rem) => some (c :: rest, rem)

/-- Characters that may appear in a JSON number token. -/
def isNumChar (c : Char) : Bool :=
  c.isDigit || c = '-' || c = '+' || c = '.' || c = 'e' || c = 'E'

/-- Match an exact literal (`null`, `true`, `false`). -/
def matchLit : List Char → List Char → Option (List Char)
  | [], cs => some cs
  | p :: ps, c :: cs => if c = p then matchLit ps cs else none
  | _ :: _, [] => none

mutual

/-- Parse one JSON value (fuel-bounded recursive descent). -/
def parseVal : Nat → List Char → Option (JValue × List Char)
  | 0, _ => none
  | Nat.succ fuel, cs =>
    match skipWs cs with
    | [] => none
    | c :: rest =>
      if c = '"' then
        match parseStringBody rest with
        | some (chars, rem) => some (.jstr (String.mk chars), rem)
        | none => none
      else if c = '\x7b' then
        match skipWs rest with
        | '\x7d' :: rem => some (.jobj [], rem)
        | rem => match parseMembers fuel rem with
                 | some (fields, rem') => some (.jobj fields, rem')
                 | none => none
      else if c = '[' then
        match skipWs rest with
        | ']' :: rem => some (.jarr [], rem)
        | rem => match parseItems fuel rem with
                 | some (items, rem') => some (.jarr items, rem')
                 | none => none
      else if c = 'n' then
        match matchLit ['u', 'l', 'l'] rest with
        | some rem => some (.jnull, rem)
        | none => none
      else if c = 't' then
        match matchLit ['r', 'u', 'e'] rest with
        | some rem => some (.jbool true, rem)
        | none => none
      else if c = 'f' then
        match matchLit ['a', 'l', 's', 'e'] rest with
        | some rem => some (.jbool false, rem)
        | none => none
      else if c.isDigit ∨ c = '-' then
        let tok := (c :: rest).takeWhile isNumChar
        let rem := (c :: rest).dropWhile isNumChar
        if tok.any Char.isDigit then some (.jnum (String.mk tok), rem) else none
      else none

/-- Parse the members of a JSON object up to and including the closing
brace. -/
def parseMembers : Nat → List Char → Option (List (String × JValue) × List Char)
  | 0, _ => none
  | Nat.succ fuel, cs =>
    match skipWs cs with
    | '"' :: rest =>
      match parseStringBody rest with
      | none => none
      | some (key, rem) =>
        match skipWs rem with
        | ':' :: rem2 =>
          match parseVal fuel rem2 with
          | none => none
          | some (v, rem3) =>
            match skipWs rem3 with
            | ',' :: rem4 =>
              match parseMembers fuel rem4 with
              | some (fields, rem5) => some ((String.mk key, v) :: fields, rem5)
              | none => none
            | '\x7d' :: rem4 => some ([(String.mk key, v)], rem4)
            | _ => none
        | _ => none
    | _ => none

/-- Parse the items of a JSON array up to and including the closing
bracket. -/
def parseItems : Nat → List Char → Option (List JValue × List Char)
  | 0, _ => none
  | Nat.succ fuel, cs =>
    match parseVal fuel cs with
    | none => none
    | some (v, rem) =>
      match skipWs rem with
      | ',' :: rem2 =>
        match parseItems fuel rem2 with
        | some (items, rem3) => some (v :: items, rem3)
        | none => none
      | ']' :: rem2 => some ([v], rem2)
      | _ => none

end

/-- Parse a whole frame as one JSON value with nothing but whitespace
after it (as `json.Unmarshal` requires). -/
def parseJson (cs : List Char) : Option JValue :=
  match parseVal (cs.length + 1) cs with
  | some (v, rem) => if skipWs rem = [] then some v else none
  | none => none

/-- Look a key up in a decoded JSON object; the last occurrence of a
duplicated key wins, as with `json.Unmarshal`. -/
def lookupLast (fields : List (String × JValue)) (name : String) : Option JValue :=
  match fields with
  | [] => none
  | (k, v) :: rest =>
    match lookupLast rest name with
    | some r => some r
    | none => if k = name then some v else none

/-- Decode a Go `string` struct field: missing or `null` leaves the zero
value `""`; a JSON string is taken verbatim; any other type is an
unmarshal error. -/
def getStr (fields : List (String × JValue)) (name : String) : Option String :=
  match lookupLast fields name with
  | none => some ""
  | some .jnull => some ""
  | some (.jstr s) => some s
  | some _ => none

/-- Decode a Go `uint64` struct field: missing or `null` leaves 0; a
plain non-negative integer token in range is accepted; fractions,
exponents, negatives and other types are unmarshal errors. -/
def getUint (fields : List (String × JValue)) (name : String) : Option Nat :=
  match lookupLast fields name with
  | none => some 0
  | some .jnull => some 0
  | some (.jnum s) =>
    if s.data ≠ [] ∧ s.data.all Char.isDigit then
      let v := s.data.foldl (fun acc c => acc * 10 + (c.toNat - 48)) 0
      if v < 2 ^ 64 then some v else none
    else none
  | some _ => none

/-- `WsRespBase` (websocket source): the outer envelope fields every
server frame carries. -/
structure WsRespBase where
  channel : String
  event : String
  user : String
deriving Repr, DecidableEq

/-- Unmarshal a JSON value into `WsRespBase`. -/
def decodeWsRespBase : JValue → Option WsRespBase
  | .jnull => some { channel := "", event := "", user := "" }
  | .jobj fields => do
    let channel ← getStr fields "channel"
    let event ← getStr fields "event"
    let user ← getStr fields "user"
    pure { channel := channel, event := event, user := user }
  | _ => none

/-- `json.Unmarshal(msg, &resp)` for `resp : WsRespBase`, as performed by
the handler installed by `SubscribeToTicker` / `SubscribeToKline`. -/
def parseWsRespBase (msg : List Char) : Option WsRespBase :=
  (parseJson msg).bind decodeWsRespBase

/-- `types.TickerData` (market.go): all fields are Go strings. -/
structure TickerData where
  exchangeId : String := ""
  lastPrice : String := ""
  markPrice : String := ""
  indexPrice : String := ""
  oraclePrice : String := ""
  priceChange : String := ""
  priceChangePercent : String := ""
  high : String := ""
  low : String := ""
  openPrice : String := ""
  closePrice : String := ""
  size : String := ""
  value : String := ""
  openInterest : String := ""
  fundingRate : String := ""
  fundingTime : String := ""
  nextFundingTime : String := ""
  startTime : String := ""
  endTime : String := ""
  highTime : String := ""
  lowTime : String := ""
  trades : String := ""
deriving Repr, DecidableEq, Inhabited

/-- The JSON keys of `types.TickerData`'s (all string) fields. -/
def tickerDataKeys : List String :=
  ["exchangeId", "lastPrice", "markPrice", "indexPrice", "oraclePrice",
   "priceChange", "priceChangePercent", "high", "low", "open", "close",
   "size", "value", "openInterest", "fundingRate", "fundingTime",
   "nextFundingTime", "startTime", "endTime", "highTime", "lowTime", "trades"]

/-- A string field's decoded value once the whole element is known to
unmarshal (missing and `null` give the zero value `""`). -/
def strField (f : List (String × JValue)) (name : String) : String :=
  (getStr f name).getD ""

/-- Unmarshal one element of the `data` array into `types.TickerData`:
the element must be an object (or `null`), every present known key must
hold a string, and each field takes that string (zero value when the
key is missing). -/
def decodeTickerData : JValue → Option TickerData
  | .jnull => some {}
  | .jobj f =>
    if tickerDataKeys.all (fun n => (getStr f n).isSome) then
      some { exchangeId := strField f "exchangeId"
             lastPrice := strField f "lastPrice"
             markPrice := strField f "markPrice"
             indexPrice := strField f "indexPrice"
             oraclePrice := strField f "oraclePrice"
             priceChange := strField f "priceChange"
             priceChangePercent := strField f "priceChangePercent"
             high := strField f "high"
             low := strField f "low"
             openPrice := strField f "open"
             closePrice := strField f "close"
             size := strField f "size"
             value := strField f "value"
             openInterest := strField f "openInterest"
             fundingRate := strField f "fundingRate"
             fundingTime := strField f "fundingTime"
             nextFundingTime := strField f "nextFundingTime"
             startTime := strField f "startTime"
             endTime := strField f "endTime"
             highTime := strField f "highTime"
             lowTime := strField f "lowTime"
             trades := strField f "trades" }
    else none
  | _ => none

/-- `types.KLine` (market.go): string fields plus a `uint64` time. -/
structure KLine where
  klineId : String := ""
  exchangeId : String := ""
  klineType : String := ""
  priceType : String := ""
  klineTime : Nat := 0
  trades : String := ""
  size : String := ""
  value : String := ""
  high : String := ""
  low : String := ""
  openPrice : String := ""
  closePrice : String := ""
  makerBuySize : String := ""
  makerBuyValue : String := ""
deriving Repr, DecidableEq, Inhabited

/-- The JSON keys of `types.KLine`'s string fields (`klineTime` is a
`uint64` and is handled separately). -/
def klineStrKeys : List String :=
  ["klineId", "exchangeId", "klineType", "priceType", "trades", "size",
   "value", "high", "low", "open", "close", "makerBuySize", "makerBuyValue"]

/-- Unmarshal one element of the `data` array into `types.KLine`: the
element must be an object (or `null`), every present known key must
hold a value of the field's type, and each field takes that value
(zero value when the key is missing). -/
def decodeKLine : JValue → Option KLine
  | .jnull => some {}
  | .jobj f =>
    if klineStrKeys.all (fun n => (getStr f n).isSome) ∧ (getUint f "klineTime").isSome then
      some { klineId := strField f "klineId"
             exchangeId := strField f "exchangeId"
             klineType := strField f "klineType"
             priceType := strField f "priceType"
             klineTime := (getUint f "klineTime").getD 0
             trades := strField f "trades"
             size := strField f "size"
             value := strField f "value"
             high := strField f "high"
             low := strField f "low"
             openPrice := strField f "open"
             closePrice := strField f "close"
             makerBuySize := strField f "makerBuySize"
             makerBuyValue := strField f "makerBuyValue" }
    else none
  | _ => none

/-- Decode a Go slice field `data []T`: missing or `null` leaves `nil`;
an array decodes elementwise; any other type is an unmarshal error. -/
def getArr {α : Type} (decodeElem : JValue → Option α)
    (fields : List (String × JValue)) (name : String) : Option (List α) :=
  match lookupLast fields name with
  | none => some []
  | some .jnull => some []
  | some (.jarr xs) => xs.mapM decodeElem
  | some _ => none

/-- The anonymous envelope struct `parseTickerData` unmarshals into:
`channel`, `event`, and `data []types.TickerData`. -/
structure TickerEnvelope where
  channel : String
  event : String
  data : List TickerData
deriving Repr, DecidableEq

/-- Unmarshal a JSON value into the ticker envelope struct. -/
def decodeTickerEnvelope : JValue → Option TickerEnvelope
  | .jnull => some { channel := "", event := "", data := [] }
  | .jobj f => do
    let channel ← getStr f "channel"
    let event ← getStr f "event"
    let data ← getArr decodeTickerData f "data"
    pure { channel := channel, event := event, data := data }
  | _ => none

/-- The anonymous envelope struct `parseKlineData` unmarshals into:
`channel`, `event`, and `data []types.KLine`. -/
structure KlineEnvelope where
  channel : String
  event : String
  data : List KLine
deriving Repr, DecidableEq

/-- Unmarshal a JSON value into the kline envelope struct. -/
def decodeKlineEnvelope : JValue → Option KlineEnvelope
  | .jnull => some { channel := "", event := "", data := [] }
  | .jobj f => do
    let channel ← getStr f "channel"
    let event ← getStr f "event"
    let data ← getArr decodeKLine f "data"
    pure { channel := channel, event := event, data := data }
  | _ => none

/-- `ParseTickerData` (websocket source 252-271): unmarshal the outer
envelope (a failure of either the JSON syntax or the struct shape is
the same `json.Unmarshal` error), reject an empty `data` array, and
return the first element. -/
def ParseTickerData (data : List Char) : Except String TickerData :=
  match parseJson data with
  | none => .error "failed to parse websocket response"
  | some v =>
    match decodeTickerEnvelope v with
    | none => .error "failed to parse websocket response"
    | some env =>
      match env.data with
      | [] => .error "no ticker data in response"
      | x :: _ => .ok x

/-- `ParseKlineData` (websocket source 274-293): same shape as
`ParseTickerData` with a `KLine` payload. -/
def ParseKlineData (data : List Char) : Except String KLine :=
  match parseJson data with
  | none => .error "failed to parse websocket response"
  | some v =>
    match decodeKlineEnvelope v with
    | none => .error "failed to parse websocket response"
    | some env =>
      match env.data with
      | [] => .error "no kline data in response"
      | x :: _ => .ok x

/-!
Subscription demultiplexer.  `SubscribeToTicker` / `SubscribeToKline`
compose a channel name, send the subscribe control frame, allocate a
buffered Go channel of capacity 100 and install a wrapper around the
current message handler.  The wrapper is embedded as a pure step
function on the queue's contents: a Go `select { case ch <- msg:
default: }` enqueues exactly when the buffer holds fewer elements than
its capacity and otherwise drops the message without blocking. -/

/-- What a `SubscribeTo*` call returns and installs: the channel name it
filters on and the capacity of the queue it allocated. -/
structure Subscription where
  channel : String
  capacity : Nat
deriving Repr, DecidableEq

/-- `WebSocketClient.SubscribeToTicker` (websocket source 168-200):
fails when not connected (the `Subscribe` control send), otherwise
builds channel `ticker.<exchangeId>` and a queue of capacity 100. -/
def SubscribeToTicker (isConnected : Bool) (exchangeId : String) :
    Except String Subscription :=
  if isConnected = false then .error "websocket not connected"
  else .ok { channel := "ticker." ++ exchangeId, capacity := 100 }

/-- `WebSocketClient.SubscribeToKline` (websocket source 203-235):
fails when not connected, otherwise builds channel
`kline.<priceType>.<exchangeId>.<klineType>` and a queue of capacity
100. -/
def SubscribeToKline (isConnected : Bool) (priceType exchangeId klineType : String) :
    Except String Subscription :=
  if isConnected = false then .error "websocket not connected"
  else
    .ok { channel := "kline." ++ priceType ++ "." ++ exchangeId ++ "." ++ klineType
          capacity := 100 }

/-- The effect of one inbound frame on one subscription's state: the
queue contents afterwards, and the frames handed on to the previously
installed handler (in order, after the enqueue attempt). -/
structure HandlerStep where
  queue : List (List Char)
  forwarded : List (List Char)
deriving Repr, DecidableEq

/-- The message handler installed by `SubscribeToTicker` /
`SubscribeToKline` (both bodies are identical up to the channel name):
unmarshal the frame's outer envelope; when that succeeds and the
envelope's channel equals the subscription's channel, attempt a
non-blocking enqueue (drop on a full queue); in every case forward the
raw frame to the original handler when one was installed. -/
def subscriptionHandlerStep (channel : String) (capacity : Nat)
    (hasOriginalHandler : Bool) (queue : List (List Char)) (msg : List Char) :
    HandlerStep :=
  let queue' :=
    match parseWsRespBase msg with
    | some resp =>
      if resp.channel = channel then
        if queue.length < capacity then queue ++ [msg] else queue
      else queue
    | none => queue
  { queue := queue', forwarded := if hasOriginalHandler then [msg] else [] }

/-!
WebSocket connection lifecycle.  `Disconnect` closes the underlying
gorilla/websocket connection, which delegates to `net.Conn.Close`; a
second close of the same network connection returns a
"use of closed network connection" error.  The connection handle is
modelled with its closed flag, and `Disconnect` with the state it
leaves plus the error it returns. -/

/-- The underlying network connection (`*websocket.Conn`): only whether
it has already been closed matters here. -/
structure NetConn where
  closed : Bool
deriving Repr, DecidableEq

/-- `Conn.Close` (gorilla/websocket delegating to `net.Conn.Close`):
closing an open connection succeeds; closing an already-closed
connection returns an error. -/
def NetConn.closeConn (c : NetConn) : NetConn × Option String :=
  if c.closed then (c, some "use of closed network connection")
  else ({ closed := true }, none)

/-- The `WebSocketClient` fields `Disconnect` touches. -/
structure WsClientState where
  conn : Option NetConn
  isConnected : Bool
deriving Repr, DecidableEq

/-- `WebSocketClient.Disconnect` (websocket source 238-244): when a
connection handle exists, clear `isConnected` and return the handle's
`Close` error (the handle itself is never cleared); when no handle was
ever created, return `nil` and leave the state untouched. -/
def Disconnect (c : WsClientState) : WsClientState × Option String :=
  match c.conn with
  | some conn =>
    let (conn', e) := conn.closeConn
    ({ conn := some conn', isConnected := false }, e)
  | none => (c, none)

/-!
Personal-message signing and verification.  The elliptic-curve and
Keccak primitives live in go-ethereum, outside this repository; they
are kept abstract as an `EthCryptoModel` record of the functions the
SDK calls (`Keccak256`, `Sign`, `SigToPub`, `PubkeyToAddress`, and the
public-key derivation applied to the signing key).  The repository's
own contribution — building the length-prefixed sign document in
`BindAgent`, and `VerifyEthPersonalSignature`'s hashing, recovery-byte
normalisation and address comparison — is embedded from the source.
Public keys and addresses are represented as `Nat`, byte strings as
`List Nat`. -/

/-- The go-ethereum primitives used by the signing and verification
paths. -/
structure EthCryptoModel where
  keccak : List Nat → List Nat
  sign : List Nat → Nat → List Nat
  sigToPub : List Nat → List Nat → Option Nat
  pubOf : Nat → Nat
  pubToAddr : Nat → Nat

/-- A Lean string as UTF-8-ish bytes (all characters of interest are
ASCII, so the character code is the byte). -/
def strBytes (s : String) : List Nat := s.data.map Char.toNat

/-- The decimal digits of `n` as bytes, as `%d` formats it. -/
def decimalBytes (n : Nat) : List Nat := strBytes (toString n)

/-- The sign document built in `BindAgent` (agent.go 29):
`"\x19Ethereum Signed Message:\n" + len(message) + message`. -/
def bindAgentSignDoc (message : List Nat) : List Nat :=
  strBytes "\x19Ethereum Signed Message:\n" ++ decimalBytes message.length ++ message

/-- The signature `BindAgent` produces (agent.go 30-31): ECDSA-sign the
Keccak256 hash of the sign document. -/
def bindAgentSignature (M : EthCryptoModel) (message : List Nat) (key : Nat) : List Nat :=
  M.sign (M.keccak (bindAgentSignDoc message)) key

/-- `accounts.TextAndHash` (go-ethereum): hash of
`"\x19Ethereum Signed Message:\n" + len(data) + data`. -/
def textAndHash (M : EthCryptoModel) (data : List Nat) : List Nat :=
  M.keccak (strBytes "\x19Ethereum Signed Message:\n" ++ decimalBytes data.length ++ data)

/-- The observable outcome of `VerifyEthPersonalSignature`: a panic
(index out of range), or a boolean result together with the contents of
the caller's signature slice after the call (the function mutates it in
place). -/
inductive VerifyOutcome where
  | panicked : VerifyOutcome
  | ok : Bool → List Nat → VerifyOutcome
deriving Repr, DecidableEq

/-- `VerifyEthPersonalSignature` (unnamed websocket/address source
56-72): hash the data with `TextAndHash`; unconditionally read
`sig[64]` (panicking when the slice is shorter than 65 bytes); when
that byte exceeds 1, subtract 27 from it in place (Go byte arithmetic,
i.e. mod 256); recover the public key; compare the derived address
with the given one.  A failed recovery returns `false`. -/
def VerifyEthPersonalSignature (M : EthCryptoModel) (address : Nat)
    (data : List Nat) (sig : List Nat) : VerifyOutcome :=
  let sigHash := textAndHash M data
  match sig.get? 64 with
  | none => .panicked
  | some v =>
    let sig' := if v > 1 then sig.set 64 ((v + 256 - 27) % 256) else sig
    match M.sigToPub sigHash sig' with
    | none => .ok false sig'
    | some p => .ok (decide (M.pubToAddr p = address)) sig'

/-!  Concrete example data reused by the witnesses below. -/

/-- A client with a configured gateway. -/
def exClient : AntxClient :=
  { baseURL := "http://gateway", chainID := "antx-testnet"
    accountNumber := 42, agentAddress := "agent-addr" }

/-- A world where every external step succeeds: the account fetch
returns sequence "7" and the gateway accepts the transaction. -/
def exWorld : World :=
  { now := 1000
    addrInfoResult := .ok { code := "0", msg := ""
                            data := { exist := true, accountNumber := "42", sequence := "7" } }
    sendTxResult := .ok { code := "0", msg := "success"
                          data := { txHash := "H1", rawTx := "", resultData := ""
                                    hash := "", txID := "" } }
    setMsgsOk := true, importOk := true, signOk := true, encodeOk := true
    txBytes := "RAWTX" }

/-- An example instruction. -/
def exMsg : SdkMsg := { payload := "order" }

/-- Claim C1: for every ordered submission (`signAndSendTx` with
`unordered = false`) that succeeds, the sequence placed on the
transaction factory is exactly the parsed sequence returned by the
`GetAccountNumberAndSequence` call performed inside that same
invocation, and that call was performed; no cached or locally
incremented sequence is used. -/
theorem ordered_submission_uses_fresh_sequence
    (c : AntxClient) (w : World) (typeURL : String) (msg : SdkMsg)
    (out : SignSendOutcome)
    (h : signAndSendTx c w typeURL msg false = .ok out) :
    ∃ accountNumber sequence sequenceUint,
      GetAccountNumberAndSequence c w c.agentAddress = .ok (accountNumber, sequence) ∧
      parseUint64 sequence = some sequenceUint ∧
      out.factory.sequence = some sequenceUint ∧
      out.fetchCalled = true := by
  unfold signAndSendTx at h
  cases hs : w.setMsgsOk <;> simp [hs] at h
  cases hi : w.importOk <;> simp [hi] at h
  cases hg : GetAccountNumberAndSequence c w c.agentAddress with
  | error e => simp [hg] at h
  | ok p =>
    obtain ⟨a, s⟩ := p
    cases hp : parseUint64 s with
    | none => simp [hg, hp] at h
    | some n =>
      cases hsig : w.signOk <;> simp [hg, hp, hsig] at h
      cases henc : w.encodeOk <;> simp [henc] at h
      cases hsend : SendRawTx c w
          { typeURL := typeURL, rawTx := w.txBytes, accountNumber := c.accountNumber } with
      | error e => simp [hsend] at h
      | ok resp =>
        simp [hsend] at h
        exact ⟨a, s, n, rfl, hp, by rw [← h], by rw [← h]⟩

/-- Witness for C1 at a concrete client, world and outcome. -/
theorem ordered_submission_uses_fresh_sequence_witness :
    ∃ accountNumber sequence sequenceUint,
      GetAccountNumberAndSequence exClient exWorld exClient.agentAddress =
        .ok (accountNumber, sequence) ∧
      parseUint64 sequence = some sequenceUint ∧
      ({ txHash := "H1"
         builder := { msgs := [exMsg], unordered := false, timeoutTimestamp := none
                      gasLimit := 200000, feeAmount := [] }
         factory := { chainID := "antx-testnet", accountNumber := 42, sequence := some 7 }
         fetchCalled := true } : SignSendOutcome).factory.sequence = some sequenceUint ∧
      ({ txHash := "H1"
         builder := { msgs := [exMsg], unordered := false, timeoutTimestamp := none
                      gasLimit := 200000, feeAmount := [] }
         factory := { chainID := "antx-testnet", accountNumber := 42, sequence := some 7 }
         fetchCalled := true } : SignSendOutcome).fetchCalled = true :=
  ordered_submission_uses_fresh_sequence exClient exWorld "typeURL" exMsg _ (by rfl)

/-- Claim C3: for every unordered submission (`signAndSendTx` with
`unordered = true`) that succeeds, the envelope's timeout timestamp is
exactly the submission time plus the fixed 10-second window, the
unordered marker is set, no account-state fetch is performed, and no
sequence is set on the transaction factory. -/
theorem unordered_submission_expiry_no_fetch
    (c : AntxClient) (w : World) (typeURL : String) (msg : SdkMsg)
    (out : SignSendOutcome)
    (h : signAndSendTx c w typeURL msg true = .ok out) :
    out.builder.timeoutTimestamp = some (w.now + 10 * 1000000000) ∧
    out.builder.unordered = true ∧
    out.fetchCalled = false ∧
    out.factory.sequence = none := by
  unfold signAndSendTx at h
  cases hs : w.setMsgsOk <;> simp [hs] at h
  cases hi : w.importOk <;> simp [hi] at h
  cases hsig : w.signOk <;> simp [hsig] at h
  cases henc : w.encodeOk <;> simp [henc] at h
  cases hsend : SendRawTx c w
      { typeURL := typeURL, rawTx := w.txBytes, accountNumber := c.accountNumber } with
  | error e => simp [hsend] at h
  | ok resp =>
    simp [hsend] at h
    refine ⟨by rw [← h], by rw [← h], by rw [← h], by rw [← h]⟩

/-- Witness for C3 at a concrete client, world and outcome. -/
theorem unordered_submission_expiry_no_fetch_witness :
    ({ txHash := "H1"
       builder := { msgs := [exMsg], unordered := true
                    timeoutTimestamp := some 10000001000
                    gasLimit := 200000, feeAmount := [] }
       factory := { chainID := "antx-testnet", accountNumber := 42, sequence := none }
       fetchCalled := false } : SignSendOutcome).builder.timeoutTimestamp =
        some (exWorld.now + 10 * 1000000000) ∧
    ({ txHash := "H1"
       builder := { msgs := [exMsg], unordered := true
                    timeoutTimestamp := some 10000001000
                    gasLimit := 200000, feeAmount := [] }
       factory := { chainID := "antx-testnet", accountNumber := 42, sequence := none }
       fetchCalled := false } : SignSendOutcome).builder.unordered = true ∧
    ({ txHash := "H1"
       builder := { msgs := [exMsg], unordered := true
                    timeoutTimestamp := some 10000001000
                    gasLimit := 200000, feeAmount := [] }
       factory := { chainID := "antx-testnet", accountNumber := 42, sequence := none }
       fetchCalled := false } : SignSendOutcome).fetchCalled = false ∧
    ({ txHash := "H1"
       builder := { msgs := [exMsg], unordered := true
                    timeoutTimestamp := some 10000001000
                    gasLimit := 200000, feeAmount := [] }
       factory := { chainID := "antx-testnet", accountNumber := 42, sequence := none }
       fetchCalled := false } : SignSendOutcome).factory.sequence = none :=
  unordered_submission_expiry_no_fetch exClient exWorld "typeURL" exMsg _ (by rfl)

/-- Claim C9: with an empty gateway `baseURL`, `SendRawTx` consults no
gateway (its result is the fabricated success response, for every
world) with code "0" and `TxHash "mock_tx_hash"`, and `signAndSendTx`
returns the non-empty handle "mock_tx_hash" and no error even though
nothing was submitted. -/
theorem no_gateway_mock_submission
    (c : AntxClient) (w : World) (typeURL : String) (msg : SdkMsg)
    (unordered : Bool) (req : SendRawTxRequest)
    (hb : c.baseURL = "")
    (h1 : w.setMsgsOk = true) (h2 : w.importOk = true)
    (h3 : w.signOk = true) (h4 : w.encodeOk = true) :
    SendRawTx c w req =
      .ok { code := "0", msg := "success"
            data := { txHash := "mock_tx_hash", rawTx := req.rawTx
                      resultData := "mock_result", hash := "", txID := "" } } ∧
    ∃ out, signAndSendTx c w typeURL msg unordered = .ok out ∧
      out.txHash = "mock_tx_hash" ∧ out.txHash ≠ "" := by
  constructor
  · unfold SendRawTx
    simp [hb]
  · unfold signAndSendTx
    simp only [h1, h2, h3, h4]
    cases unordered with
    | false =>
      have hg : GetAccountNumberAndSequence c w c.agentAddress = .ok ("0", "0") := by
        unfold GetAccountNumberAndSequence; simp [hb]
      have hsend : SendRawTx c w
          { typeURL := typeURL, rawTx := w.txBytes, accountNumber := c.accountNumber } =
          .ok { code := "0", msg := "success"
                data := { txHash := "mock_tx_hash", rawTx := w.txBytes
                          resultData := "mock_result", hash := "", txID := "" } } := by
        unfold SendRawTx; simp [hb]
      simp [hg, hsend, parseUint64, extractTxHash]
    | true =>
      have hsend : SendRawTx c w
          { typeURL := typeURL, rawTx := w.txBytes, accountNumber := c.accountNumber } =
          .ok { code := "0", msg := "success"
                data := { txHash := "mock_tx_hash", rawTx := w.txBytes
                          resultData := "mock_result", hash := "", txID := "" } } := by
        unfold SendRawTx; simp [hb]
      simp [hsend, extractTxHash]

/-- A client with no gateway configured. -/
def exClientNoGateway : AntxClient :=
  { baseURL := "", chainID := "antx-testnet", accountNumber := 0, agentAddress := "agent-addr" }

/-- Witness for C9 at a concrete gateway-less client. -/
theorem no_gateway_mock_submission_witness :
    SendRawTx exClientNoGateway exWorld { typeURL := "t", rawTx := "R", accountNumber := 0 } =
      .ok { code := "0", msg := "success"
            data := { txHash := "mock_tx_hash", rawTx := "R"
                      resultData := "mock_result", hash := "", txID := "" } } ∧
    ∃ out, signAndSendTx exClientNoGateway exWorld "t" exMsg false = .ok out ∧
      out.txHash = "mock_tx_hash" ∧ out.txHash ≠ "" :=
  no_gateway_mock_submission exClientNoGateway exWorld "t" exMsg false
    { typeURL := "t", rawTx := "R", accountNumber := 0 } rfl rfl rfl rfl rfl

/-- A world whose gateway answers the transaction POST with
`{"code":"1","msg":"insufficient balance"}` and no hash fields. -/
def exWorldRejected : World :=
  { exWorld with
    sendTxResult := .ok { code := "1", msg := "insufficient balance"
                          data := { txHash := "", rawTx := "", resultData := ""
                                    hash := "", txID := "" } } }

/-- Counterexample to claim C2: when the gateway answers the
`sendTransaction` POST with `{"code":"1","msg":"insufficient balance"}`,
`signAndSendTx` does NOT return an application-level error — it returns
`Except.ok` with an empty transaction handle, because neither
`SendRawTx` nor `signAndSendTx` inspects the response's code field. -/
theorem sendtx_rejected_returns_ok_empty_handle :
    signAndSendTx exClient exWorldRejected "t" exMsg true =
      .ok { txHash := ""
            builder := { msgs := [exMsg], unordered := true
                         timeoutTimestamp := some 10000001000
                         gasLimit := 200000, feeAmount := [] }
            factory := { chainID := "antx-testnet", accountNumber := 42, sequence := none }
            fetchCalled := false } := by rfl

/-- Claim C2 as amended: when the gateway's `sendTransaction` response
carries a non-"0" code, `SendRawTx` returns the parsed response with no
error — the code field is never inspected on the send path — and
`signAndSendTx` returns no error, with the handle extracted from the
response's hash fields (so an empty handle when, as in a failure
response, none is set); the gateway's message is discarded. -/
theorem sendtx_nonzero_code_not_detected
    (c : AntxClient) (w : World) (typeURL : String) (msg : SdkMsg)
    (req : SendRawTxRequest) (resp : SendRawTxResponse)
    (hb : c.baseURL ≠ "")
    (hr : w.sendTxResult = .ok resp)
    (hcode : resp.code ≠ "0")
    (h1 : w.setMsgsOk = true) (h2 : w.importOk = true)
    (h3 : w.signOk = true) (h4 : w.encodeOk = true) :
    SendRawTx c w req = .ok resp ∧
    ∃ out, signAndSendTx c w typeURL msg true = .ok out ∧
      out.txHash = extractTxHash resp.data := by
  have hsend : ∀ r : SendRawTxRequest, SendRawTx c w r = .ok resp := by
    intro r
    unfold SendRawTx
    simp [hb, hr]
  refine ⟨hsend req, ?_⟩
  unfold signAndSendTx
  simp only [h1, h2, h3, h4]
  simp [hsend]

/-- Witness for the amended C2 at a concrete rejected submission. -/
theorem sendtx_nonzero_code_not_detected_witness :
    SendRawTx exClient exWorldRejected { typeURL := "t", rawTx := "R", accountNumber := 42 } =
      .ok { code := "1", msg := "insufficient balance"
            data := { txHash := "", rawTx := "", resultData := "", hash := "", txID := "" } } ∧
    ∃ out, signAndSendTx exClient exWorldRejected "t" exMsg true = .ok out ∧
      out.txHash = extractTxHash { txHash := "", rawTx := "", resultData := ""
                                   hash := "", txID := "" } :=
  sendtx_nonzero_code_not_detected exClient exWorldRejected "t" exMsg
    { typeURL := "t", rawTx := "R", accountNumber := 42 }
    { code := "1", msg := "insufficient balance"
      data := { txHash := "", rawTx := "", resultData := "", hash := "", txID := "" } }
    (by decide) rfl (by decide) rfl rfl rfl rfl

/-- Claim C4: after a successful `SubscribeToTicker exchangeId`, the
installed handler enqueues every frame whose parsed outer envelope has
channel `ticker.<exchangeId>` (when the queue is not full), never
enqueues a frame whose channel field differs, and in both cases still
forwards the raw frame to the previously installed handler
afterwards. -/
theorem ticker_subscription_demux
    (isConnected : Bool) (exchangeId : String) (sub : Subscription)
    (hsub : SubscribeToTicker isConnected exchangeId = .ok sub)
    (hasOriginalHandler : Bool) (queue : List (List Char)) (msg : List Char) :
    sub.channel = "ticker." ++ exchangeId ∧
    (∀ resp, parseWsRespBase msg = some resp →
      (resp.channel = "ticker." ++ exchangeId → queue.length < sub.capacity →
        subscriptionHandlerStep sub.channel sub.capacity hasOriginalHandler queue msg =
          { queue := queue ++ [msg]
            forwarded := if hasOriginalHandler then [msg] else [] }) ∧
      (resp.channel ≠ "ticker." ++ exchangeId →
        (subscriptionHandlerStep sub.channel sub.capacity hasOriginalHandler queue msg).queue
          = queue)) ∧
    (subscriptionHandlerStep sub.channel sub.capacity hasOriginalHandler queue msg).forwarded
      = (if hasOriginalHandler then [msg] else []) := by
  unfold SubscribeToTicker at hsub
  cases isConnected with
  | false => simp at hsub
  | true =>
    simp at hsub
    subst hsub
    refine ⟨rfl, ?_, ?_⟩
    · intro resp hparse
      constructor
      · intro hch hlen
        unfold subscriptionHandlerStep
        simp only [hparse, hch]
        simp [hlen]
      · intro hne
        unfold subscriptionHandlerStep
        simp only [hparse]
        simp [hne]
    · unfold subscriptionHandlerStep
      cases hparse : parseWsRespBase msg <;> simp [hparse]

/-- A frame on channel `ticker.200001`. -/
def exFrameTicker : List Char :=
  "\x7b\"channel\":\"ticker.200001\",\"event\":\"payload\",\"data\":[\x7b\"lastPrice\":\"5\"\x7d]\x7d".data

/-- A frame on a different channel. -/
def exFrameOther : List Char :=
  "\x7b\"channel\":\"ticker.300001\",\"event\":\"payload\"\x7d".data

/-- Witness for C4: the `ticker.200001` subscription enqueues and
forwards a matching frame, and leaves the queue unchanged for a frame
on `ticker.300001`. -/
theorem ticker_subscription_demux_witness :
    subscriptionHandlerStep "ticker.200001" 100 true [] exFrameTicker =
      { queue := [exFrameTicker], forwarded := [exFrameTicker] } ∧
    (subscriptionHandlerStep "ticker.200001" 100 true [] exFrameOther).queue = [] := by
  constructor
  · exact ((ticker_subscription_demux true "200001"
      { channel := "ticker.200001", capacity := 100 } rfl true [] exFrameTicker).2.1
      { channel := "ticker.200001", event := "payload", user := "" }
      (by decide)).1 (by decide) (by decide)
  · exact ((ticker_subscription_demux true "200001"
      { channel := "ticker.200001", capacity := 100 } rfl true [] exFrameOther).2.1
      { channel := "ticker.300001", event := "payload", user := "" }
      (by decide)).2 (by decide)

/-- Claim C5: the queues created by `SubscribeToTicker` and
`SubscribeToKline` have fixed capacity 100, and the installed handler
never blocks: on a queue already holding 100 frames, any new frame
(matching or not) leaves the queue's contents unchanged and the handler
still returns its step (forwarding the frame onward). -/
theorem subscription_queue_capacity_and_drop
    (isConnected : Bool) (exchangeId priceType klineType : String)
    (subT subK : Subscription) (hasOriginalHandler : Bool)
    (queue : List (List Char)) (msg : List Char)
    (hT : SubscribeToTicker isConnected exchangeId = .ok subT)
    (hK : SubscribeToKline isConnected priceType exchangeId klineType = .ok subK)
    (hq : queue.length = 100) :
    subT.capacity = 100 ∧ subK.capacity = 100 ∧
    (subscriptionHandlerStep subT.channel subT.capacity hasOriginalHandler queue msg).queue
      = queue ∧
    (subscriptionHandlerStep subK.channel subK.capacity hasOriginalHandler queue msg).queue
      = queue := by
  unfold SubscribeToTicker at hT
  unfold SubscribeToKline at hK
  cases isConnected with
  | false => simp at hT
  | true =>
    simp at hT hK
    subst hT
    subst hK
    have hfull : ∀ channel : String,
        (subscriptionHandlerStep channel 100 hasOriginalHandler queue msg).queue = queue := by
      intro channel
      unfold subscriptionHandlerStep
      cases hparse : parseWsRespBase msg with
      | none => simp [hparse]
      | some resp =>
        by_cases hch : resp.channel = channel
        · simp [hparse, hch, hq]
        · simp [hparse, hch]
    exact ⟨rfl, rfl, hfull _, hfull _⟩

/-- A queue already holding 100 frames. -/
def exFullQueue : List (List Char) := List.replicate 100 []

/-- Witness for C5: concrete ticker and kline subscriptions of capacity
100, and a matching frame dropped against a full queue. -/
theorem subscription_queue_capacity_and_drop_witness :
    ({ channel := "ticker.200001", capacity := 100 } : Subscription).capacity = 100 ∧
    ({ channel := "kline.PRICE_TYPE_LAST.200001.MINUTE_1", capacity := 100 } :
        Subscription).capacity = 100 ∧
    (subscriptionHandlerStep
      ({ channel := "ticker.200001", capacity := 100 } : Subscription).channel
      ({ channel := "ticker.200001", capacity := 100 } : Subscription).capacity
      true exFullQueue exFrameTicker).queue = exFullQueue ∧
    (subscriptionHandlerStep
      ({ channel := "kline.PRICE_TYPE_LAST.200001.MINUTE_1", capacity := 100 } :
          Subscription).channel
      ({ channel := "kline.PRICE_TYPE_LAST.200001.MINUTE_1", capacity := 100 } :
          Subscription).capacity
      true exFullQueue exFrameTicker).queue = exFullQueue :=
  subscription_queue_capacity_and_drop true "200001" "PRICE_TYPE_LAST" "MINUTE_1"
    { channel := "ticker.200001", capacity := 100 }
    { channel := "kline.PRICE_TYPE_LAST.200001.MINUTE_1", capacity := 100 }
    true exFullQueue exFrameTicker rfl rfl (by decide)

/-- Claim C6: for every byte input, `ParseTickerData` and
`ParseKlineData` return a parse ("malformed frame") error when the
outer envelope does not parse, an empty-payload error when the envelope
parses but its `data` array is empty, and the first element of `data`
otherwise. -/
theorem parse_frame_envelope_trichotomy (bs : List Char) :
    (parseJson bs = none →
      ParseTickerData bs = .error "failed to parse websocket response" ∧
      ParseKlineData bs = .error "failed to parse websocket response") ∧
    (∀ v envT, parseJson bs = some v → decodeTickerEnvelope v = some envT →
      (envT.data = [] → ParseTickerData bs = .error "no ticker data in response") ∧
      (∀ x rest, envT.data = x :: rest → ParseTickerData bs = .ok x)) ∧
    (∀ v envK, parseJson bs = some v → decodeKlineEnvelope v = some envK →
      (envK.data = [] → ParseKlineData bs = .error "no kline data in response") ∧
      (∀ x rest, envK.data = x :: rest → ParseKlineData bs = .ok x)) := by
  refine ⟨?_, ?_, ?_⟩
  · intro hp
    unfold ParseTickerData ParseKlineData
    simp [hp]
  · intro v envT hp hd
    unfold ParseTickerData
    simp only [hp, hd]
    constructor
    · intro he; simp [he]
    · intro x rest he; simp [he]
  · intro v envK hp hd
    unfold ParseKlineData
    simp only [hp, hd]
    constructor
    · intro he; simp [he]
    · intro x rest he; simp [he]

/-- A well-formed kline frame whose `data` holds one element. -/
def exFrameKline : List Char :=
  "\x7b\"channel\":\"kline.1\",\"event\":\"payload\",\"data\":[\x7b\"klineTime\":12,\"close\":\"9\"\x7d]\x7d".data

/-- A frame whose `data` array is empty. -/
def exFrameEmptyData : List Char :=
  "\x7b\"channel\":\"ticker.200001\",\"event\":\"payload\",\"data\":[]\x7d".data

/-- A byte input that is not valid JSON. -/
def exFrameBad : List Char := "not json".data

/-- Witness for C6: the three cases at concrete inputs, for both
parsers. -/
theorem parse_frame_envelope_trichotomy_witness :
    ParseTickerData exFrameBad = .error "failed to parse websocket response" ∧
    ParseKlineData exFrameBad = .error "failed to parse websocket response" ∧
    ParseTickerData exFrameEmptyData = .error "no ticker data in response" ∧
    ParseKlineData exFrameEmptyData = .error "no kline data in response" ∧
    ParseTickerData exFrameTicker = .ok { lastPrice := "5" } ∧
    ParseKlineData exFrameKline = .ok { klineTime := 12, closePrice := "9" } := by
  refine ⟨?_, ?_, ?_, ?_, ?_, ?_⟩
  · exact ((parse_frame_envelope_trichotomy exFrameBad).1 (by rfl)).1
  · exact ((parse_frame_envelope_trichotomy exFrameBad).1 (by rfl)).2
  · exact ((parse_frame_envelope_trichotomy exFrameEmptyData).2.1
      (.jobj [("channel", .jstr "ticker.200001"), ("event", .jstr "payload"),
              ("data", .jarr [])])
      { channel := "ticker.200001", event := "payload", data := [] }
      (by rfl) (by rfl)).1 (by rfl)
  · exact ((parse_frame_envelope_trichotomy exFrameEmptyData).2.2
      (.jobj [("channel", .jstr "ticker.200001"), ("event", .jstr "payload"),
              ("data", .jarr [])])
      { channel := "ticker.200001", event := "payload", data := [] }
      (by rfl) (by rfl)).1 (by rfl)
  · exact ((parse_frame_envelope_trichotomy exFrameTicker).2.1
      (.jobj [("channel", .jstr "ticker.200001"), ("event", .jstr "payload"),
              ("data", .jarr [.jobj [("lastPrice", .jstr "5")]])])
      { channel := "ticker.200001", event := "payload", data := [{ lastPrice := "5" }] }
      (by rfl) (by rfl)).2 { lastPrice := "5" } [] (by rfl)
  · exact ((parse_frame_envelope_trichotomy exFrameKline).2.2
      (.jobj [("channel", .jstr "kline.1"), ("event", .jstr "payload"),
              ("data", .jarr [.jobj [("klineTime", .jnum "12"), ("close", .jstr "9")]])])
      { channel := "kline.1", event := "payload", data := [{ klineTime := 12, closePrice := "9" }] }
      (by rfl) (by rfl)).2 { klineTime := 12, closePrice := "9" } [] (by rfl)

/-- Claim C7: under the standard properties of the go-ethereum
primitives — `Sign` produces a 65-byte signature whose byte 64 is the
recovery id 0 or 1, and `SigToPub` recovers the signer's public key
from the signed hash — the length-prefixed personal-message signature
produced by `BindAgent`'s signing path verifies via
`VerifyEthPersonalSignature` against the address derived from the
signing key, and fails verification against any other address.  The
repository-level content is that both sides build the same
`"\x19Ethereum Signed Message:\n" + length + message` document, and
that a recovery id ≤ 1 is left unmutated on the verification path. -/
theorem bindagent_signature_verifies_iff_address
    (M : EthCryptoModel) (message : List Nat) (key : Nat) (other : Nat) (v : Nat)
    (hv : (bindAgentSignature M message key).get? 64 = some v)
    (hvle : v ≤ 1)
    (hrec : M.sigToPub (textAndHash M message) (bindAgentSignature M message key) =
      some (M.pubOf key)) :
    VerifyEthPersonalSignature M (M.pubToAddr (M.pubOf key)) message
      (bindAgentSignature M message key) =
      .ok true (bindAgentSignature M message key) ∧
    (other ≠ M.pubToAddr (M.pubOf key) →
      VerifyEthPersonalSignature M other message (bindAgentSignature M message key) =
        .ok false (bindAgentSignature M message key)) := by
  have hnotgt : ¬ v > 1 := by omega
  constructor
  · unfold VerifyEthPersonalSignature
    simp only [hv, hnotgt, if_false, hrec]
    simp
  · intro hne
    unfold VerifyEthPersonalSignature
    simp only [hv, hnotgt, if_false, hrec]
    simp [Ne.symm hne]

/-- A concrete instantiation of the go-ethereum primitives satisfying
the recovery properties: keys and public keys coincide, the signature
encodes the public key in its first byte with recovery id 0 in byte
64, and recovery reads it back. -/
def exCrypto : EthCryptoModel :=
  { keccak := fun bs => bs
    sign := fun _hash key => key :: (List.replicate 63 0 ++ [0])
    sigToPub := fun _hash sig => sig.head?
    pubOf := fun key => key
    pubToAddr := fun p => p }

/-- Witness for C7: with the concrete primitive model, key 5 signs the
message "hi" and verification succeeds against address 5 and fails
against address 7. -/
theorem bindagent_signature_verifies_iff_address_witness :
    VerifyEthPersonalSignature exCrypto 5 [104, 105]
      (bindAgentSignature exCrypto [104, 105] 5) =
      .ok true (bindAgentSignature exCrypto [104, 105] 5) ∧
    VerifyEthPersonalSignature exCrypto 7 [104, 105]
      (bindAgentSignature exCrypto [104, 105] 5) =
      .ok false (bindAgentSignature exCrypto [104, 105] 5) :=
  ⟨(bindagent_signature_verifies_iff_address exCrypto [104, 105] 5 7 0
      (by rfl) (by decide) (by rfl)).1,
   (bindagent_signature_verifies_iff_address exCrypto [104, 105] 5 7 0
      (by rfl) (by decide) (by rfl)).2 (by decide)⟩

/-- `l.set n w` differs from `l` when position `n` holds a different
value. -/
theorem set_ne_of_get_ne (l : List Nat) (n w v : Nat)
    (hget : l.get? n = some v) (hne : w ≠ v) : l.set n w ≠ l := by
  induction l generalizing n with
  | nil => simp at hget
  | cons a t ih =>
    cases n with
    | zero =>
      simp at hget
      subst hget
      simp [List.set]
      exact hne
    | succ m =>
      simp at hget
      simp [List.set]
      exact ih m (by simpa using hget)

/-- Claim C10: `VerifyEthPersonalSignature` unconditionally indexes
byte 64 of the signature: a signature shorter than 65 bytes makes it
panic (index out of range) rather than return `false`, and when byte 64
exceeds 1 the caller's slice is mutated in place, its byte 64 replaced
by that value minus 27 in Go byte (mod-256) arithmetic. -/
theorem verify_signature_unchecked_index
    (M : EthCryptoModel) (address : Nat) (data sig : List Nat) (v : Nat) :
    (sig.length < 65 → VerifyEthPersonalSignature M address data sig = .panicked) ∧
    (sig.get? 64 = some v → v > 1 →
      (∃ r, VerifyEthPersonalSignature M address data sig =
        .ok r (sig.set 64 ((v + 256 - 27) % 256))) ∧
      sig.set 64 ((v + 256 - 27) % 256) ≠ sig) := by
  constructor
  · intro hlen
    have hnone : sig.get? 64 = none := by
      rw [List.get?_eq_none]
      omega
    unfold VerifyEthPersonalSignature
    simp only [hnone]
  · intro hget hgt
    constructor
    · unfold VerifyEthPersonalSignature
      simp only [hget, hgt, if_pos]
      cases M.sigToPub (textAndHash M data) (sig.set 64 ((v + 256 - 27) % 256)) with
      | none => exact ⟨false, by simp⟩
      | some p => exact ⟨decide (M.pubToAddr p = address), by simp⟩
    · apply set_ne_of_get_ne sig 64 _ v hget
      omega

/-- Witness for C10: a 64-byte signature panics; a 65-byte signature
with recovery byte 28 is rewritten in place to recovery byte 1. -/
theorem verify_signature_unchecked_index_witness :
    VerifyEthPersonalSignature exCrypto 0 [] (List.replicate 64 0) = .panicked ∧
    ((∃ r, VerifyEthPersonalSignature exCrypto 0 [] (List.replicate 64 1 ++ [28]) =
        .ok r ((List.replicate 64 1 ++ [28]).set 64 ((28 + 256 - 27) % 256))) ∧
      (List.replicate 64 1 ++ [28]).set 64 ((28 + 256 - 27) % 256) ≠
        List.replicate 64 1 ++ [28]) :=
  ⟨(verify_signature_unchecked_index exCrypto 0 [] (List.replicate 64 0) 0).1
      (by decide),
   (verify_signature_unchecked_index exCrypto 0 [] (List.replicate 64 1 ++ [28]) 28).2
      (by decide) (by decide)⟩

/-- A freshly connected WebSocket client. -/
def exWsConnected : WsClientState :=
  { conn := some { closed := false }, isConnected := true }

/-- Counterexample to claim C8: the first `Disconnect` returns no
error, but a second `Disconnect` does not return without error — the
connection handle is never cleared, so the second call closes an
already-closed connection and returns its error. -/
theorem disconnect_again_returns_error :
    (Disconnect exWsConnected).2 = none ∧
    (Disconnect (Disconnect exWsConnected).1).2 =
      some "use of closed network connection" := by decide

/-- Claim C8 as amended: `Disconnect` is safe to call from any state
and always leaves the client disconnected; when no connection was ever
opened it returns without error and changes nothing, but when called
again after a previous `Disconnect` it returns the underlying
connection's double-close error (while still reporting `isConnected =
false`), because the handle is not cleared. -/
theorem disconnect_safe_but_not_errorless
    (c : WsClientState) :
    (c.conn = none → Disconnect c = (c, none)) ∧
    (∀ conn, c.conn = some conn →
      (Disconnect c).1.isConnected = false ∧
      (Disconnect c).1.conn = some { closed := true } ∧
      ((Disconnect c).2 = none ↔ conn.closed = false)) := by
  constructor
  · intro hn
    unfold Disconnect
    simp [hn]
  · intro conn hc
    obtain ⟨closedFlag⟩ := conn
    unfold Disconnect NetConn.closeConn
    cases closedFlag <;> simp [hc]

/-- Witness for the amended C8: a never-connected client and a
connected client, with both branches discharged. -/
theorem disconnect_safe_but_not_errorless_witness :
    Disconnect { conn := none, isConnected := false } =
      ({ conn := none, isConnected := false }, none) ∧
    (Disconnect exWsConnected).1.isConnected = false ∧
    (Disconnect exWsConnected).1.conn = some { closed := true } ∧
    ((Disconnect exWsConnected).2 = none ↔ ({ closed := false } : NetConn).closed = false) :=
  ⟨(disconnect_safe_but_not_errorless { conn := none, isConnected := false }).1 rfl,
   (disconnect_safe_but_not_errorless exWsConnected).2 { closed := false } rfl⟩

end AntxSdk
